import Mathlib

/-!
Verification of the angle-set scheduling core of OSN_CodeVerifier
(src/angle_set.h, OpenSn sweep infrastructure).

The class `AngleSet` of src/angle_set.h is embedded shallowly: its data
members (lines 126-143) become a Lean structure, its inline member
functions become Lean functions over that structure.  Machine integers are
Nat with an explicit modulus where the C++ narrows: the constructor (line
42) copies a std::vector of size_t into the member
std::vector of std::uint32_t `angles_`, so every stored index is the
supplied index reduced modulo 2 ^ 32.

Members that are declared but whose bodies are outside the provided
sources (the pure-virtual `AngleSetAdvance`, the out-of-line
`HasAngleIndex`) are modelled from the specification, as marked on each
such definition.
-/

set_option autoImplicit false

/-- The modulus of std::uint32_t, the element type of the member
vector `angles_` (src/angle_set.h line 139). -/
def UINT32_MOD : Nat := 2 ^ 32

/-- Opaque stand-in for the SPDS collaborator (dependency plan), declared
in a header outside the provided sources; the angle set only stores a
reference to it. -/
structure SPDS where
  tag : Nat
deriving DecidableEq, Repr

/-- Opaque stand-in for the FLUDS collaborator (flux storage), declared in
a header outside the provided sources; the angle set only stores a shared
pointer to it. -/
structure FLUDS where
  tag : Nat
deriving DecidableEq, Repr

/-- Opaque stand-in for a SweepBoundary, declared in a header outside the
provided sources. -/
structure SweepBoundary where
  tag : Nat
deriving DecidableEq, Repr

/-- The boundary map std::map of uint64_t to shared_ptr of SweepBoundary
(src/angle_set.h line 141), embedded as an association list. -/
abbrev BoundaryMap : Type := List (Nat × SweepBoundary)

/-- The data members of class AngleSet (src/angle_set.h lines 126-143):
`id_`, `num_groups_`, the SPDS reference `spds_`, the FLUDS pointer
`fluds_`, the index vector `angles_` (element type std::uint32_t, so every
element is below 2 ^ 32), the boundary-map reference `boundaries_`, and
the flag `executed_` (line 143, initialised false). -/
structure AngleSet where
  id_ : Nat
  num_groups_ : Nat
  spds_ : SPDS
  fluds_ : FLUDS
  angles_ : List Nat
  boundaries_ : BoundaryMap
  executed_ : Bool
deriving DecidableEq, Repr

/-- The constructor AngleSet::AngleSet (src/angle_set.h lines 32-45).  Its
body is empty; the initializer list copies each argument into the matching
member.  The member initializer
angles_(angle_indices.begin(), angle_indices.end()) copies size_t values
into a std::vector of std::uint32_t, which narrows every index modulo
2 ^ 32.  The member `executed_` keeps its in-class initializer false.  No
argument is checked. -/
def AngleSet.construct (id num_groups : Nat) (spds : SPDS) (fluds : FLUDS)
    (angle_indices : List Nat) (boundaries : BoundaryMap) : AngleSet :=
  { id_ := id
    num_groups_ := num_groups
    spds_ := spds
    fluds_ := fluds
    angles_ := angle_indices.map (fun a => a % UINT32_MOD)
    boundaries_ := boundaries
    executed_ := false }

/-- GetID (src/angle_set.h line 47). -/
def AngleSet.GetID (s : AngleSet) : Nat := s.id_

/-- GetNumGroups (src/angle_set.h line 57). -/
def AngleSet.GetNumGroups (s : AngleSet) : Nat := s.num_groups_

/-- GetAngleIndices (src/angle_set.h line 53). -/
def AngleSet.GetAngleIndices (s : AngleSet) : List Nat := s.angles_

/-- GetBoundaries (src/angle_set.h line 55). -/
def AngleSet.GetBoundaries (s : AngleSet) : BoundaryMap := s.boundaries_

/-- GetNumAngles (src/angle_set.h line 60): the size of `angles_`. -/
def AngleSet.GetNumAngles (s : AngleSet) : Nat := s.angles_.length

/-- Modelled from the spec: the body of HasAngleIndex is not among the
provided sources (src/angle_set.h line 63 only declares it).  Spec 4.1:
"returns whether a given direction index belongs to this angle set's
index list; pure, O(1) expected, no side effects".  The declared
parameter type is std::uint32_t, so a wider caller value is narrowed
modulo 2 ^ 32 at the call site, which theorems make explicit. -/
def AngleSet.HasAngleIndex (s : AngleSet) (angle_index : Nat) : Bool :=
  decide (angle_index ∈ s.angles_)

/-- UpdateSweepDependencies (src/angle_set.h line 69): the default virtual
implementation has an empty body, so the angle set and the caller-supplied
set of dependent angle sets are both left untouched. -/
def AngleSet.UpdateSweepDependencies (s : AngleSet)
    (dependent_angle_sets : List AngleSet) : AngleSet × List AngleSet :=
  (s, dependent_angle_sets)

/-- The fatal, non-recoverable fault raised by OpenSnLogicalError. -/
inductive OpenSnError where
  | logicalError (msg : String)
deriving DecidableEq, Repr

/-- Opaque stand-in for AsynchronousCommunicator, declared in a header
outside the provided sources. -/
structure AsynchronousCommunicator where
  tag : Nat
deriving DecidableEq, Repr

/-- The message of the fault raised by the base GetCommunicator. -/
def methodNotImplementedMsg : String := "Method not implemented"

/-- GetCommunicator (src/angle_set.h lines 71-74): the base virtual
implementation unconditionally raises
OpenSnLogicalError("Method not implemented") and never produces a
communicator; raising is embedded as returning the error value. -/
def AngleSet.GetCommunicator (_ : AngleSet) :
    Except OpenSnError AsynchronousCommunicator :=
  Except.error (OpenSnError.logicalError methodNotImplementedMsg)

/-- Modelled from the spec: the status enumeration AngleSetStatus is
declared in sweep.h, outside the provided sources.  Spec section 3 lists
the four values ReceivingData, ReadyToExecute, Executed and Finished,
used both as advance results and, together with the permission value
EXECUTE named in the doc comment at src/angle_set.h line 95, as the
execution permission passed to AngleSetAdvance. -/
inductive AngleSetStatus where
  | ReceivingData
  | ReadyToExecute
  | Executed
  | Finished
  | Execute
deriving DecidableEq, Repr

/-- Modelled from the spec: the observable state of the asynchronous
communicator owned by an angle set (spec section 4.2), reduced to what the
advance protocol polls: how many required receives have not yet arrived
and how many enqueued sends are not yet confirmed complete. -/
structure CommState where
  pendingReceives : Nat
  pendingSends : Nat
deriving DecidableEq, Repr

/-- Modelled from the spec: one angle set's sweep-protocol state: the
AngleSet data of src/angle_set.h, its communicator state, and an
invocation counter for the external numerical kernel (the spec verifies
at-most-once execution "with an invocation counter", section 8). -/
structure SweepState where
  aset : AngleSet
  comm : CommState
  kernelInvocations : Nat
deriving DecidableEq, Repr

/-- Modelled from the spec: the body of the pure-virtual AngleSetAdvance
(src/angle_set.h line 97).  Spec section 4.1, in order: if already
Finished (kernel ran and all sends confirmed) return Finished unchanged;
once `executed` is true the kernel must never run again until an explicit
reset, and a further advance returns Executed or Finished; otherwise poll
the communicator, and if a required receive is incomplete return
ReceivingData; otherwise if the permission denies execution return
ReadyToExecute without invoking the kernel; otherwise invoke the kernel
once, set `executed` true, enqueue the `downstream` outgoing sends
(non-blocking) and return Executed.  The whole operation is one
poll-and-return step: it is a total function of the current state and
never waits. -/
def AngleSetAdvance (st : SweepState) (permission : AngleSetStatus)
    (downstream : Nat) : SweepState × AngleSetStatus :=
  if st.aset.executed_ then
    if st.comm.pendingSends = 0 then (st, AngleSetStatus.Finished)
    else (st, AngleSetStatus.Executed)
  else if st.comm.pendingReceives ≠ 0 then
    (st, AngleSetStatus.ReceivingData)
  else if permission ≠ AngleSetStatus.Execute then
    (st, AngleSetStatus.ReadyToExecute)
  else
    ({ aset := { st.aset with executed_ := true }
       comm := { st.comm with pendingSends := st.comm.pendingSends + downstream }
       kernelInvocations := st.kernelInvocations + 1 },
     AngleSetStatus.Executed)

/-- The Finished configuration of spec section 3: the kernel has run and
every enqueued send is confirmed complete. -/
def FinishedState (st : SweepState) : Prop :=
  st.aset.executed_ = true ∧ st.comm.pendingSends = 0

/-- Modelled from the spec: arrival of one required message at the
communicator (environment step): one fewer pending receive. -/
def ReceiveMessage (st : SweepState) : SweepState :=
  { st with comm := { st.comm with pendingReceives := st.comm.pendingReceives - 1 } }

/-- Modelled from the spec: confirmation of one enqueued send
(environment step): one fewer pending send. -/
def ConfirmSend (st : SweepState) : SweepState :=
  { st with comm := { st.comm with pendingSends := st.comm.pendingSends - 1 } }

/-- Modelled from the spec: the explicit reset between outer iterations
(spec section 4.1) clears `executed` and the buffered-send bookkeeping. -/
def ResetSweepBuffers (st : SweepState) : SweepState :=
  { st with
    aset := { st.aset with executed_ := false }
    comm := { st.comm with pendingSends := 0 } }

/-- Reachability invariant of the protocol: the kernel only ever runs once
every required receive has arrived, and pending receives never grow, so an
executed angle set has no required receive outstanding. -/
abbrev RecvInv (st : SweepState) : Prop :=
  st.aset.executed_ = true → st.comm.pendingReceives = 0

theorem recvInv_initial (a : AngleSet) (recv : Nat) (k : Nat)
    (h : a.executed_ = false) :
    RecvInv { aset := a, comm := { pendingReceives := recv, pendingSends := 0 }, kernelInvocations := k } := by
  intro hx
  simp only at hx
  rw [h] at hx
  cases hx

theorem recvInv_advance (st : SweepState) (permission : AngleSetStatus)
    (downstream : Nat) (h : RecvInv st) :
    RecvInv (AngleSetAdvance st permission downstream).1 := by
  unfold AngleSetAdvance
  by_cases he : st.aset.executed_ = true
  · by_cases hs : st.comm.pendingSends = 0 <;> simp [he, hs, h]
  · by_cases hr : st.comm.pendingReceives = 0
    · by_cases hp : permission = AngleSetStatus.Execute <;>
        simp [he, hr, hp, RecvInv, h]
    · simp [he, hr, RecvInv, h]

theorem recvInv_receiveMessage (st : SweepState) (h : RecvInv st) :
    RecvInv (ReceiveMessage st) := by
  intro hx
  have := h hx
  simp [ReceiveMessage, this]

/-- Claim C1: once an advance has set the executed flag, every further
advance call before an explicit reset returns Executed or Finished,
leaves the kernel-invocation counter unchanged (the kernel is not invoked
again), and keeps the executed flag set, so the same holds of all later
advance calls until a reset. -/
theorem advance_after_executed_no_kernel (st : SweepState)
    (permission : AngleSetStatus) (downstream : Nat)
    (h : st.aset.executed_ = true) :
    ((AngleSetAdvance st permission downstream).2 = AngleSetStatus.Executed ∨
      (AngleSetAdvance st permission downstream).2 = AngleSetStatus.Finished) ∧
    (AngleSetAdvance st permission downstream).1.kernelInvocations =
      st.kernelInvocations ∧
    (AngleSetAdvance st permission downstream).1.aset.executed_ = true := by
  by_cases hs : st.comm.pendingSends = 0 <;> simp [AngleSetAdvance, h, hs]

/-- Concrete instance of C1: an already-executed angle set (id 3, indices
5, 7, 9, one unconfirmed send) advanced with permission Execute. -/
def executedSample : SweepState :=
  { aset := { id_ := 3, num_groups_ := 2, spds_ := ⟨0⟩, fluds_ := ⟨0⟩,
              angles_ := [5, 7, 9], boundaries_ := [], executed_ := true }
    comm := { pendingReceives := 0, pendingSends := 1 }
    kernelInvocations := 1 }

theorem advance_after_executed_no_kernel_witness :
    ((AngleSetAdvance executedSample AngleSetStatus.Execute 0).2 =
        AngleSetStatus.Executed ∨
      (AngleSetAdvance executedSample AngleSetStatus.Execute 0).2 =
        AngleSetStatus.Finished) ∧
    (AngleSetAdvance executedSample AngleSetStatus.Execute 0).1.kernelInvocations =
      executedSample.kernelInvocations ∧
    (AngleSetAdvance executedSample AngleSetStatus.Execute 0).1.aset.executed_ = true :=
  advance_after_executed_no_kernel executedSample AngleSetStatus.Execute 0 rfl

/-- Claim C2: advance with a permission that denies execution (any value
other than Execute) never invokes the kernel, whatever the data
readiness; and when the angle set has not yet executed and every required
receive is complete, such a call returns ReadyToExecute and changes
nothing. -/
theorem advance_denied_no_kernel (st : SweepState) (permission : AngleSetStatus)
    (downstream : Nat) (hperm : permission ≠ AngleSetStatus.Execute) :
    (AngleSetAdvance st permission downstream).1.kernelInvocations =
      st.kernelInvocations ∧
    (st.aset.executed_ = false → st.comm.pendingReceives = 0 →
      AngleSetAdvance st permission downstream = (st, AngleSetStatus.ReadyToExecute)) := by
  constructor
  · by_cases he : st.aset.executed_ = true <;>
      by_cases hs : st.comm.pendingSends = 0 <;>
      by_cases hr : st.comm.pendingReceives = 0 <;>
      simp [AngleSetAdvance, he, hs, hr, hperm]
  · intro he hr
    simp [AngleSetAdvance, he, hr, hperm]

/-- Concrete instance of C2: a ready, not-yet-executed angle set advanced
with the denying permission ReadyToExecute. -/
def readySample : SweepState :=
  { aset := { id_ := 3, num_groups_ := 2, spds_ := ⟨0⟩, fluds_ := ⟨0⟩,
              angles_ := [5, 7, 9], boundaries_ := [], executed_ := false }
    comm := { pendingReceives := 0, pendingSends := 0 }
    kernelInvocations := 0 }

theorem advance_denied_no_kernel_witness :
    (AngleSetAdvance readySample AngleSetStatus.ReadyToExecute 0).1.kernelInvocations =
      readySample.kernelInvocations ∧
    (readySample.aset.executed_ = false → readySample.comm.pendingReceives = 0 →
      AngleSetAdvance readySample AngleSetStatus.ReadyToExecute 0 =
        (readySample, AngleSetStatus.ReadyToExecute)) :=
  advance_denied_no_kernel readySample AngleSetStatus.ReadyToExecute 0 (by decide)

/-- Claim C3: on an angle set already in the Finished configuration,
advance returns Finished and changes nothing at all: an idempotent
no-op. -/
theorem advance_finished_idempotent (st : SweepState) (permission : AngleSetStatus)
    (downstream : Nat) (h : FinishedState st) :
    AngleSetAdvance st permission downstream = (st, AngleSetStatus.Finished) := by
  obtain ⟨he, hs⟩ := h
  simp [AngleSetAdvance, he, hs]

/-- Concrete instance of C3: an executed angle set with every send
confirmed. -/
def finishedSample : SweepState :=
  { aset := { id_ := 3, num_groups_ := 2, spds_ := ⟨0⟩, fluds_ := ⟨0⟩,
              angles_ := [5, 7, 9], boundaries_ := [], executed_ := true }
    comm := { pendingReceives := 0, pendingSends := 0 }
    kernelInvocations := 1 }

theorem advance_finished_idempotent_witness :
    AngleSetAdvance finishedSample AngleSetStatus.Execute 0 =
      (finishedSample, AngleSetStatus.Finished) :=
  advance_finished_idempotent finishedSample AngleSetStatus.Execute 0
    (by exact ⟨rfl, rfl⟩)

/-- Claim C4: on an angle set that still requires at least one incomplete
receive (a reachable configuration, so the executed flag cannot be set),
advance returns ReceivingData and returns the state untouched: the kernel
is not invoked, no send is enqueued, and the call is a single
poll-and-return step (the embedding is a total function, never a wait). -/
theorem advance_receiving_no_effect (st : SweepState) (permission : AngleSetStatus)
    (downstream : Nat) (hinv : RecvInv st) (h : st.comm.pendingReceives ≠ 0) :
    AngleSetAdvance st permission downstream = (st, AngleSetStatus.ReceivingData) := by
  have he : st.aset.executed_ = false := by
    cases hex : st.aset.executed_
    · rfl
    · exact absurd (hinv hex) h
  simp [AngleSetAdvance, he, h]

/-- Concrete instance of C4: a fresh angle set still waiting on two
required receives. -/
def receivingSample : SweepState :=
  { aset := { id_ := 3, num_groups_ := 2, spds_ := ⟨0⟩, fluds_ := ⟨0⟩,
              angles_ := [5, 7, 9], boundaries_ := [], executed_ := false }
    comm := { pendingReceives := 2, pendingSends := 0 }
    kernelInvocations := 0 }

theorem advance_receiving_no_effect_witness :
    AngleSetAdvance receivingSample AngleSetStatus.Execute 0 =
      (receivingSample, AngleSetStatus.ReceivingData) :=
  advance_receiving_no_effect receivingSample AngleSetStatus.Execute 0
    (by decide) (by decide)

/-- Counterexample to claim C5 as stated: the angle set constructed with
the index list [2 ^ 32] answers true to HasAngleIndex 0, yet 0 is not an
element of the supplied list, because the constructor stored 2 ^ 32
narrowed to the 32-bit value 0. -/
theorem hasAngleIndex_not_supplied_cex :
    (AngleSet.construct 0 1 ⟨0⟩ ⟨0⟩ [2 ^ 32] []).HasAngleIndex 0 = true ∧
    ([2 ^ 32] : List Nat).contains 0 = false := by
  constructor <;> decide

/-- Claim C5 amended: HasAngleIndex v is true exactly when v equals some
supplied construction index reduced modulo 2 ^ 32 (hence, when every
supplied index is below 2 ^ 32, exactly when v is a supplied index, and
false for every other index); the test is a pure function with no side
effects. -/
theorem hasAngleIndex_iff_mod_membership (id ng : Nat) (spds : SPDS)
    (fluds : FLUDS) (angle_indices : List Nat) (boundaries : BoundaryMap)
    (v : Nat) :
    (AngleSet.construct id ng spds fluds angle_indices boundaries).HasAngleIndex v = true ↔
      v ∈ angle_indices.map (fun a => a % UINT32_MOD) := by
  simp [AngleSet.construct, AngleSet.HasAngleIndex]

/-- Claim C6: the default dependency query leaves the caller-supplied set
of dependent angle sets exactly as it was and does not touch the angle
set either: it reports no dependencies and has no other effect. -/
theorem updateSweepDependencies_default_noop (s : AngleSet)
    (dependent_angle_sets : List AngleSet) :
    s.UpdateSweepDependencies dependent_angle_sets = (s, dependent_angle_sets) :=
  rfl

/-- Claim C7: on the base angle-set variant, which has no communicator,
every GetCommunicator call raises the fatal logic fault
OpenSnLogicalError("Method not implemented") and never yields a
communicator. -/
theorem getCommunicator_always_fault (s : AngleSet) :
    s.GetCommunicator =
      Except.error (OpenSnError.logicalError methodNotImplementedMsg) :=
  rfl

/-- Counterexample to claim C8 as stated: constructing with the index
list [2 ^ 32] stores the narrowed value 0, so GetAngleIndices does not
list the supplied index. -/
theorem construct_getAngleIndices_cex :
    (AngleSet.construct 3 2 ⟨0⟩ ⟨0⟩ [2 ^ 32] []).GetAngleIndices ≠ [2 ^ 32] := by
  decide

/-- Claim C8 amended: after construct(id, num_groups, spds, fluds,
angle_indices, boundaries), GetID is id, GetNumGroups is num_groups,
GetAngleIndices lists the supplied indices each narrowed modulo 2 ^ 32 in
their supplied order (hence exactly the supplied indices whenever each is
below 2 ^ 32), GetNumAngles is the length of angle_indices, and the
executed flag is initially false. -/
theorem construct_fields (id ng : Nat) (spds : SPDS) (fluds : FLUDS)
    (angle_indices : List Nat) (boundaries : BoundaryMap) :
    (AngleSet.construct id ng spds fluds angle_indices boundaries).GetID = id ∧
    (AngleSet.construct id ng spds fluds angle_indices boundaries).GetNumGroups = ng ∧
    (AngleSet.construct id ng spds fluds angle_indices boundaries).GetAngleIndices =
      angle_indices.map (fun a => a % UINT32_MOD) ∧
    (AngleSet.construct id ng spds fluds angle_indices boundaries).GetNumAngles =
      angle_indices.length ∧
    (AngleSet.construct id ng spds fluds angle_indices boundaries).executed_ = false := by
  refine ⟨rfl, rfl, rfl, ?_, rfl⟩
  simp [AngleSet.construct, AngleSet.GetNumAngles]

/-- Claim C9: a construction index v supplied as size_t is stored narrowed
modulo 2 ^ 32, and two supplied indices that agree modulo 2 ^ 32 yield
indistinguishable angle sets, in particular equal answers from the
membership test on every query. -/
theorem construct_narrowing_mod32 (id ng v w : Nat) (spds : SPDS)
    (fluds : FLUDS) (rest : List Nat) (boundaries : BoundaryMap)
    (hmod : v % UINT32_MOD = w % UINT32_MOD) :
    (AngleSet.construct id ng spds fluds (v :: rest) boundaries).angles_ =
      (v % UINT32_MOD) :: rest.map (fun a => a % UINT32_MOD) ∧
    AngleSet.construct id ng spds fluds (v :: rest) boundaries =
      AngleSet.construct id ng spds fluds (w :: rest) boundaries ∧
    ∀ u : Nat,
      (AngleSet.construct id ng spds fluds (v :: rest) boundaries).HasAngleIndex u =
        (AngleSet.construct id ng spds fluds (w :: rest) boundaries).HasAngleIndex u := by
  have h2 : AngleSet.construct id ng spds fluds (v :: rest) boundaries =
      AngleSet.construct id ng spds fluds (w :: rest) boundaries := by
    simp [AngleSet.construct, hmod]
  exact ⟨rfl, h2, fun u => by rw [h2]⟩

theorem construct_narrowing_mod32_witness :
    (AngleSet.construct 0 1 ⟨0⟩ ⟨0⟩ (2 ^ 32 :: [5]) []).angles_ =
      (2 ^ 32 % UINT32_MOD) :: ([5] : List Nat).map (fun a => a % UINT32_MOD) ∧
    AngleSet.construct 0 1 ⟨0⟩ ⟨0⟩ (2 ^ 32 :: [5]) [] =
      AngleSet.construct 0 1 ⟨0⟩ ⟨0⟩ (0 :: [5]) [] ∧
    ∀ u : Nat,
      (AngleSet.construct 0 1 ⟨0⟩ ⟨0⟩ (2 ^ 32 :: [5]) []).HasAngleIndex u =
        (AngleSet.construct 0 1 ⟨0⟩ ⟨0⟩ (0 :: [5]) []).HasAngleIndex u :=
  construct_narrowing_mod32 0 1 (2 ^ 32) 0 ⟨0⟩ ⟨0⟩ [5] [] (by decide)

/-- Claim C10: the constructor is total and checks nothing: it succeeds
for every input, including zero groups, an empty index list and a list
with duplicates, and duplicates are stored as supplied (narrowed modulo
2 ^ 32), not deduplicated. -/
theorem construct_total_unchecked (id ng : Nat) (spds : SPDS) (fluds : FLUDS)
    (angle_indices : List Nat) (boundaries : BoundaryMap) :
    (AngleSet.construct id ng spds fluds angle_indices boundaries).num_groups_ = ng ∧
    (AngleSet.construct id ng spds fluds angle_indices boundaries).angles_ =
      angle_indices.map (fun a => a % UINT32_MOD) ∧
    (AngleSet.construct 7 0 spds fluds [] boundaries).GetNumAngles = 0 ∧
    (AngleSet.construct 7 1 spds fluds [5, 5, 5] boundaries).GetAngleIndices =
      [5, 5, 5] ∧
    (AngleSet.construct 7 1 spds fluds [5, 5, 5] boundaries).GetNumAngles = 3 :=
  ⟨rfl, rfl, rfl, rfl, rfl⟩
